import Mathlib

/- Verification of the warren-ai metrics-and-rules decision engine
   (warren_core.agents.data_quality, valuation, devils_advocate).
   Python floats are modelled as exact rationals; a dict field that may be
   absent (dict.get returning None) is modelled as an Option, and a history
   field defaulting to the empty list as a List. -/

namespace Warren

/-- Raw financial record: the open mapping of optional numeric fields and
numeric-sequence fields read by the agents via dict.get. An absent field
(or one present with value None) is modelled as none; an absent history
as the empty list. -/
structure FinancialRecord where
  operating_income : Option ℚ := none
  tax_rate : Option ℚ := none
  total_assets : Option ℚ := none
  current_liabilities : Option ℚ := none
  cash : Option ℚ := none
  net_income : Option ℚ := none
  shareholders_equity : Option ℚ := none
  shareholders_equity_prev : Option ℚ := none
  gross_margin : List ℚ := []
  roic_history : List ℚ := []
  revenue_growth : List ℚ := []
  cfo : Option ℚ := none
  total_capex : Option ℚ := none
  growth_capex_ratio : Option ℚ := none
  beneish_m_score : Option ℚ := none
deriving DecidableEq

/-- DataQualityAgent._calculate_roic: ROIC = NOPAT / InvestedCapital with
NOPAT = OperatingIncome * (1 - TaxRate) and
InvestedCapital = TotalAssets - CurrentLiabilities - Cash;
returns 0 when invested capital is non-positive. Defaults: operating
income 0, tax rate 0.25, balance-sheet fields 0. -/
def calculate_roic (data : FinancialRecord) : ℚ :=
  let operating_income := data.operating_income.getD 0
  let tax_rate := data.tax_rate.getD 0.25
  let nopat := operating_income * (1 - tax_rate)
  let total_assets := data.total_assets.getD 0
  let current_liabilities := data.current_liabilities.getD 0
  let cash := data.cash.getD 0
  let invested_capital := total_assets - current_liabilities - cash
  if invested_capital ≤ 0 then 0
  else nopat / invested_capital

/-- DataQualityAgent._calculate_roe: ROE = NetIncome / AverageEquity, where
the average uses the previous-year equity only when it is provided and
positive; returns 0 when the average equity is non-positive. -/
def calculate_roe (data : FinancialRecord) : ℚ :=
  let net_income := data.net_income.getD 0
  let current_equity := data.shareholders_equity.getD 0
  let avg_equity :=
    match data.shareholders_equity_prev with
    | some prev_equity =>
        if 0 < prev_equity then (current_equity + prev_equity) / 2
        else current_equity
    | none => current_equity
  if avg_equity ≤ 0 then 0
  else net_income / avg_equity

/-- ValuationAgent._calculate_owner_earnings: Owner Earnings =
OperatingCashFlow - MaintenanceCapEx, where maintenance capex is
total_capex * (1 - growth_capex_ratio) when total capex is positive and a
ratio is given, half of total capex when total capex is positive with no
ratio, and 30 percent of CFO otherwise. -/
def calculate_owner_earnings (data : FinancialRecord) : ℚ :=
  let cfo := data.cfo.getD 0
  let total_capex := data.total_capex.getD 0
  let maintenance_capex :=
    if 0 < total_capex ∧ data.growth_capex_ratio ≠ none then
      total_capex * (1 - data.growth_capex_ratio.getD 0)
    else if 0 < total_capex then
      total_capex * 0.5
    else
      cfo * 0.30
  cfo - maintenance_capex

/-- ValuationAgent._calculate_mos: margin of safety
(IntrinsicValue - CurrentPrice) / IntrinsicValue, with sentinel -1.0
whenever the intrinsic value is non-positive. -/
def calculate_mos (intrinsic_value current_price : ℚ) : ℚ :=
  if intrinsic_value ≤ 0 then -1
  else (intrinsic_value - current_price) / intrinsic_value

/-- Mean of a list of rationals, as statistics.mean (used on nonempty lists). -/
def listMean (l : List ℚ) : ℚ := l.sum / l.length

/-- Python round on an exact rational value: round half to even, as the
int(round(x)) applied to the moat-score sum. -/
def pyRound (x : ℚ) : ℤ :=
  let f := ⌊x⌋
  let frac := x - f
  if frac < 1/2 then f
  else if 1/2 < frac then f + 1
  else if f % 2 = 0 then f
  else f + 1

/-- DataQualityAgent._compute_moat_score. The three factors (pricing power,
ROIC persistence, revenue-growth stability) are summed and the result is
min(100, int(round(score))). The sample standard deviation computed by
statistics.stdev is irrational in general, so it is kept as a parameter
vol of the embedding: every theorem below holds for an arbitrary vol, in
particular the true standard deviation. -/
def compute_moat_score (vol : List ℚ → ℚ) (data : FinancialRecord) : ℤ :=
  let factor₁ : ℚ :=
    if data.gross_margin ≠ [] then
      let avg_margin := listMean data.gross_margin
      let level_score := min 20 (avg_margin * 40)
      let stability_score :=
        if 2 ≤ data.gross_margin.length then
          max 0 (15 - vol data.gross_margin * 75)
        else 7.5
      level_score + stability_score
    else 0
  let factor₂ : ℚ :=
    if data.roic_history ≠ [] then
      let avg_roic := listMean data.roic_history
      let level_score := min 20 (avg_roic * 80)
      let consistency_score :=
        if 2 ≤ data.roic_history.length then
          max 0 (15 - vol data.roic_history * 150)
        else 7.5
      level_score + consistency_score
    else 0
  let factor₃ : ℚ :=
    if data.revenue_growth ≠ [] then
      let avg_growth := listMean data.revenue_growth
      let level_score := max 0 (min 15 (avg_growth * 100))
      let stability_score :=
        if 2 ≤ data.revenue_growth.length then
          max 0 (15 - vol data.revenue_growth * 150)
        else 7.5
      level_score + stability_score
    else 0
  let score := factor₁ + factor₂ + factor₃
  min 100 (pyRound score)

/-- Warning dict appended by DataQualityAgent._check_data_integrity:
keys severity, category, message. -/
structure DataWarning where
  severity : String
  category : String
  message : String
deriving DecidableEq

/-- The five critical_fields checked by _check_data_integrity. -/
def critical_fields : List String :=
  ["operating_income", "net_income", "total_assets", "shareholders_equity", "cfo"]

/-- Lookup data.get(field) for the critical fields, by name. -/
def getField (data : FinancialRecord) (field : String) : Option ℚ :=
  if field = "operating_income" then data.operating_income
  else if field = "net_income" then data.net_income
  else if field = "total_assets" then data.total_assets
  else if field = "shareholders_equity" then data.shareholders_equity
  else if field = "cfo" then data.cfo
  else none

/-- The missing critical fields, in the configured order. -/
def missing_fields (data : FinancialRecord) : List String :=
  critical_fields.filter fun field => (getField data field).isNone

/-- Check 1 of _check_data_integrity: Beneish M-score above -2.2 when
present. Numeric formatting of the Python f-string (the .2f specifier) is
abstracted by toString here and in the other warning messages. -/
def beneish_warnings (data : FinancialRecord) : List DataWarning :=
  match data.beneish_m_score with
  | some beneish_m =>
      if -2.2 < beneish_m then
        [{ severity := "A", category := "earnings_quality",
           message := "High earnings manipulation risk (Beneish M-score: "
             ++ toString beneish_m ++ " > -2.2)" }]
      else []
  | none => []

/-- Check 2 of _check_data_integrity: cash conversion quality, only when
both CFO and net income are present and net income is positive. -/
def cash_warnings (data : FinancialRecord) : List DataWarning :=
  match data.cfo, data.net_income with
  | some cfo, some net_income =>
      if 0 < net_income then
        let cfo_ni_ratio := cfo / net_income
        if cfo_ni_ratio < 0.5 then
          [{ severity := "A", category := "cash_quality",
             message := "Poor cash conversion (CFO/NI: "
               ++ toString cfo_ni_ratio ++ " < 0.5)" }]
        else if cfo_ni_ratio < 0.8 then
          [{ severity := "B", category := "cash_quality",
             message := "Weak cash conversion (CFO/NI: "
               ++ toString cfo_ni_ratio ++ " < 0.8)" }]
        else []
      else []
  | _, _ => []

/-- Check 3 of _check_data_integrity: missing critical fields; the message
is the exact join of the missing field names. -/
def missing_warnings (data : FinancialRecord) : List DataWarning :=
  if missing_fields data ≠ [] then
    [{ severity := if (missing_fields data).length ≤ 2 then "B" else "C",
       category := "missing_data",
       message := "Missing critical fields: "
         ++ String.intercalate ", " (missing_fields data) }]
  else []

/-- Check 4 of _check_data_integrity: negative shareholders equity. -/
def equity_warnings (data : FinancialRecord) : List DataWarning :=
  match data.shareholders_equity with
  | some equity =>
      if equity < 0 then
        [{ severity := "A", category := "balance_sheet",
           message := "Negative shareholders equity (balance sheet distress)" }]
      else []
  | none => []

/-- DataQualityAgent._check_data_integrity: the four independent checks,
each appending at most one warning, in source order. -/
def check_data_integrity (data : FinancialRecord) : List DataWarning :=
  beneish_warnings data ++ cash_warnings data ++ missing_warnings data
    ++ equity_warnings data

/-- Output dataclass of the Data Quality Agent. -/
structure DataQualityOutput where
  ticker : String
  roic : ℚ
  roe : ℚ
  margin_stability : ℚ
  moat_score : ℤ
  data_warnings : List DataWarning
  beneish_m_score : ℚ
  cfo_ni_ratio : ℚ
deriving DecidableEq

/-- DataQualityAgent.analyze, parametric in the sample standard deviation
vol as in compute_moat_score. -/
def analyze (vol : List ℚ → ℚ) (ticker : String)
    (financial_data : FinancialRecord) : DataQualityOutput :=
  { ticker := ticker
    roic := calculate_roic financial_data
    roe := calculate_roe financial_data
    margin_stability :=
      if 2 ≤ financial_data.gross_margin.length then vol financial_data.gross_margin
      else 0
    moat_score := compute_moat_score vol financial_data
    data_warnings := check_data_integrity financial_data
    beneish_m_score := financial_data.beneish_m_score.getD (-3)
    cfo_ni_ratio :=
      let cfo := financial_data.cfo.getD 0
      let net_income := financial_data.net_income.getD 1
      if 0 < net_income then cfo / net_income else 0 }

/-- Output dataclass of the Valuation Agent. The dcf_assumptions dict has
no numeric reading in the condition DSL and is kept as an opaque mapping. -/
structure ValuationOutput where
  ticker : String
  owner_earnings : ℚ
  intrinsic_value_base : ℚ
  intrinsic_value_low : ℚ
  intrinsic_value_high : ℚ
  current_price : ℚ
  margin_of_safety : ℚ
  dcf_assumptions : List (String × String) := []
deriving DecidableEq

/-- Value of an attribute looked up by the condition DSL: a numeric field,
or a non-numeric one (a string, list or dict), whose order comparison with
a float raises a TypeError in Python. -/
inductive MVal where
  | num (value : ℚ)
  | other
deriving DecidableEq

/-- getattr on the declared fields of DataQualityOutput (hasattr succeeds
exactly on these field names in the model). -/
def dqaAttr (output : DataQualityOutput) (name : String) : Option MVal :=
  if name = "ticker" then some .other
  else if name = "roic" then some (.num output.roic)
  else if name = "roe" then some (.num output.roe)
  else if name = "margin_stability" then some (.num output.margin_stability)
  else if name = "moat_score" then some (.num output.moat_score)
  else if name = "data_warnings" then some .other
  else if name = "beneish_m_score" then some (.num output.beneish_m_score)
  else if name = "cfo_ni_ratio" then some (.num output.cfo_ni_ratio)
  else none

/-- getattr on the declared fields of ValuationOutput. -/
def vaAttr (output : ValuationOutput) (name : String) : Option MVal :=
  if name = "ticker" then some .other
  else if name = "owner_earnings" then some (.num output.owner_earnings)
  else if name = "intrinsic_value_base" then some (.num output.intrinsic_value_base)
  else if name = "intrinsic_value_low" then some (.num output.intrinsic_value_low)
  else if name = "intrinsic_value_high" then some (.num output.intrinsic_value_high)
  else if name = "current_price" then some (.num output.current_price)
  else if name = "margin_of_safety" then some (.num output.margin_of_safety)
  else if name = "dcf_assumptions" then some .other
  else none

/-- Metric resolution of _evaluate_condition: first the quality output,
then the valuation output, then the alias mos for margin_of_safety. -/
def resolve_metric (dqa_output : DataQualityOutput) (va_output : ValuationOutput)
    (metric : String) : Option MVal :=
  match dqaAttr dqa_output metric with
  | some value => some value
  | none =>
      match vaAttr va_output metric with
      | some value => some value
      | none =>
          if metric = "mos" then some (.num va_output.margin_of_safety)
          else none

/-- Whitespace tokenizer on characters: current reversed token in acc,
emit it at each whitespace run and at the end. -/
def wsTokens : List Char → List Char → List String
  | [], acc => if acc = [] then [] else [String.mk acc.reverse]
  | c :: rest, acc =>
      if c.isWhitespace then
        if acc = [] then wsTokens rest []
        else String.mk acc.reverse :: wsTokens rest []
      else wsTokens rest (c :: acc)

/-- str.split() of Python: split on whitespace runs, dropping empty pieces. -/
def pyTokens (s : String) : List String :=
  wsTokens s.toList []

/-- Numeric value of a digit string. -/
def digitsToNat (ds : List Char) : ℕ :=
  ds.foldl (fun a c => a * 10 + (c.toNat - 48)) 0

/-- Exponent digits of a float literal: nonempty, all digits. -/
def pyExpDigits (cs : List Char) : Option ℕ :=
  if cs ≠ [] ∧ cs.all Char.isDigit then some (digitsToNat cs) else none

/-- Signed exponent of a float literal. -/
def pyExp (cs : List Char) : Option ℤ :=
  match cs with
  | '+' :: r => (pyExpDigits r).map fun n => (n : ℤ)
  | '-' :: r => (pyExpDigits r).map fun n => -(n : ℤ)
  | _ => (pyExpDigits cs).map fun n => (n : ℤ)

/-- Unsigned body of a float literal: digits, optional point and fraction
digits (at least one digit overall), optional exponent part. -/
def pyFloatBody (cs : List Char) : Option ℚ :=
  let (ip, rest₁) := cs.span Char.isDigit
  let (fp, rest₂) :=
    match rest₁ with
    | '.' :: r => r.span Char.isDigit
    | _ => ([], rest₁)
  if ip = [] ∧ fp = [] then none
  else
    let mantissa : ℚ := (digitsToNat ip : ℚ) + (digitsToNat fp : ℚ) / 10 ^ fp.length
    match rest₂ with
    | [] => some mantissa
    | 'e' :: r => (pyExp r).map fun e => mantissa * (10 : ℚ) ^ e
    | 'E' :: r => (pyExp r).map fun e => mantissa * (10 : ℚ) ^ e
    | _ => none

/-- Python float(s) on a threshold string, as an exact rational: surrounding
whitespace stripped, optional sign, decimal literal with optional fraction
and exponent. The inf/nan spellings and underscore separators, which no
finite rational models, are outside the modelled grammar. -/
def pyFloat (s : String) : Option ℚ :=
  match (s.toList.dropWhile Char.isWhitespace).reverse.dropWhile Char.isWhitespace
      |>.reverse with
  | '+' :: rest => pyFloatBody rest
  | '-' :: rest => (pyFloatBody rest).map fun q => -q
  | cs => pyFloatBody cs

/-- Order comparison of a resolved attribute value with the threshold:
numeric values compare, non-numeric ones raise a TypeError. -/
def ordCompare (value : MVal) (threshold : ℚ) (cmp : ℚ → ℚ → Bool) :
    Except String Bool :=
  match value with
  | .num q => .ok (cmp q threshold)
  | .other => .error "TypeError"

/-- DevilsAdvocateAgent._evaluate_condition: parse metric operator threshold,
resolve the metric, compare. Wrong token count, unparsable threshold,
unresolvable metric and unknown operator all yield ok false; a known order
operator applied to a non-numeric attribute propagates a TypeError, and
Python equality of a non-numeric value with a float is False. -/
def evaluate_condition (condition : String) (dqa_output : DataQualityOutput)
    (va_output : ValuationOutput) : Except String Bool :=
  match pyTokens condition with
  | [metric, operator, threshold_str] =>
      match pyFloat threshold_str with
      | none => .ok false
      | some threshold =>
          match resolve_metric dqa_output va_output metric with
          | none => .ok false
          | some value =>
              if operator = ">" then
                ordCompare value threshold fun a b => decide (b < a)
              else if operator = "<" then
                ordCompare value threshold fun a b => decide (a < b)
              else if operator = ">=" then
                ordCompare value threshold fun a b => decide (b ≤ a)
              else if operator = "<=" then
                ordCompare value threshold fun a b => decide (a ≤ b)
              else if operator = "==" then
                match value with
                | .num q => .ok (q == threshold)
                | .other => .ok false
              else .ok false
  | _ => .ok false

/-- Configured veto rule: severity (rule.get of a possibly absent key),
condition string and description. -/
structure VetoRule where
  severity : Option String := none
  condition : String := ""
  description : String := ""
deriving DecidableEq

/-- DevilsAdvocateAgent._check_veto_rules: walk the configured rules in
order, skip every rule whose severity is not A, return on the first A-rule
whose condition evaluates true; an evaluation error propagates as the
Python exception would. -/
def check_veto_rules (veto_rules : List VetoRule) (dqa_output : DataQualityOutput)
    (va_output : ValuationOutput) : Except String (Bool × Option String) :=
  match veto_rules with
  | [] => .ok (false, none)
  | rule :: rest =>
      if rule.severity ≠ some "A" then check_veto_rules rest dqa_output va_output
      else
        match evaluate_condition rule.condition dqa_output va_output with
        | .error e => .error e
        | .ok true => .ok (true, some rule.description)
        | .ok false => check_veto_rules rest dqa_output va_output

/-- CounterArgument dataclass of the Devils Advocate Agent. -/
structure CounterArgument where
  severity : String
  category : String
  claim : String
  evidence : String
  impact : String
deriving DecidableEq

/-- Block 1 of _generate_counterarguments: profitability concern on ROIC.
Numeric formatting of the Python f-strings is abstracted by toString here
and in the other blocks. -/
def roic_concerns (dqa_output : DataQualityOutput) : List CounterArgument :=
  if dqa_output.roic < 0.12 then
    [{ severity := if 0.08 ≤ dqa_output.roic then "B" else "A",
       category := "profitability",
       claim := "Below-average ROIC (" ++ toString dqa_output.roic
         ++ ") indicates weak capital efficiency",
       evidence := "ROIC of " ++ toString dqa_output.roic
         ++ " is below the 12% quality threshold, suggesting the company struggles to generate returns on invested capital",
       impact := "Lower ROIC reduces intrinsic value and indicates potential competitive disadvantages or capital allocation issues" }]
  else []

/-- Block 1 of _generate_counterarguments, second half: ROE concern. -/
def roe_concerns (dqa_output : DataQualityOutput) : List CounterArgument :=
  if dqa_output.roe < 0.15 then
    [{ severity := if 0.10 ≤ dqa_output.roe then "B" else "A",
       category := "profitability",
       claim := "Subpar ROE (" ++ toString dqa_output.roe
         ++ ") suggests inefficient use of shareholder equity",
       evidence := "ROE of " ++ toString dqa_output.roe
         ++ " falls short of the 15% quality threshold",
       impact := "Mediocre returns on equity may indicate management inefficiency or structural business challenges" }]
  else []

/-- Block 2 of _generate_counterarguments: competitive moat concern. -/
def moat_concerns (dqa_output : DataQualityOutput) : List CounterArgument :=
  if dqa_output.moat_score < 60 then
    if dqa_output.moat_score < 40 then
      [{ severity := "A",
         category := "competitive_moat",
         claim := "No durable competitive advantage (moat score: "
           ++ toString dqa_output.moat_score ++ "/100)",
         evidence := "Moat score of " ++ toString dqa_output.moat_score
           ++ "/100 indicates limited pricing power, inconsistent ROIC, or unstable growth",
         impact := "Without a moat, the company is vulnerable to competition and unlikely to sustain above-average returns" }]
    else
      [{ severity := "B",
         category := "competitive_moat",
         claim := "Weak competitive moat (moat score: "
           ++ toString dqa_output.moat_score ++ "/100)",
         evidence := "Moat score of " ++ toString dqa_output.moat_score
           ++ "/100 indicates limited pricing power, inconsistent ROIC, or unstable growth",
         impact := "Marginal competitive advantages may erode under competitive pressure or market changes" }]
  else []

/-- Block 3 of _generate_counterarguments: valuation concern with tiered
severity A below 0.10, B below 0.20, C below 0.30. -/
def valuation_concerns (va_output : ValuationOutput) : List CounterArgument :=
  if va_output.margin_of_safety < 0.30 then
    let sev_claim :=
      if va_output.margin_of_safety < 0.10 then
        ("A", "Minimal margin of safety (" ++ toString va_output.margin_of_safety
          ++ ") provides no downside protection")
      else if va_output.margin_of_safety < 0.20 then
        ("B", "Thin margin of safety (" ++ toString va_output.margin_of_safety
          ++ ") offers limited downside protection")
      else
        ("C", "Modest margin of safety (" ++ toString va_output.margin_of_safety
          ++ ") leaves little room for error")
    [{ severity := sev_claim.1,
       category := "valuation",
       claim := sev_claim.2,
       evidence := "At " ++ toString va_output.margin_of_safety
         ++ " MOS, current price is "
         ++ toString (100 - va_output.margin_of_safety * 100)
         ++ "% of intrinsic value",
       impact := "Limited margin of safety increases risk if growth disappoints or assumptions prove optimistic" }]
  else []

/-- Block 4 of _generate_counterarguments: cash quality concern for a
CFO/NI ratio in the band from 0.5 up to 0.8. -/
def cash_quality_concerns (dqa_output : DataQualityOutput) : List CounterArgument :=
  if dqa_output.cfo_ni_ratio < 0.8 then
    if 0.5 ≤ dqa_output.cfo_ni_ratio then
      [{ severity := "B",
         category := "cash_quality",
         claim := "Weak cash conversion (CFO/NI: " ++ toString dqa_output.cfo_ni_ratio
           ++ ") raises earnings quality concerns",
         evidence := "Operating cash flow of " ++ toString dqa_output.cfo_ni_ratio
           ++ "x net income suggests potential accounting aggressiveness",
         impact := "Lower cash conversion may indicate earnings quality issues or working capital deterioration" }]
    else []
  else []

/-- Block 5 of _generate_counterarguments: business stability concern on
margin volatility. -/
def stability_concerns (dqa_output : DataQualityOutput) : List CounterArgument :=
  if 0.10 < dqa_output.margin_stability then
    [{ severity := if dqa_output.margin_stability < 0.15 then "B" else "A",
       category := "business_stability",
       claim := "High margin volatility (" ++ toString dqa_output.margin_stability
         ++ " std dev) indicates business instability",
       evidence := "Gross margin standard deviation of "
         ++ toString dqa_output.margin_stability
         ++ " suggests inconsistent pricing power or cost control",
       impact := "Margin instability makes future cash flows unpredictable and increases valuation uncertainty" }]
  else []

/-- Block 6 of _generate_counterarguments: the A and B integrity warnings
re-surfaced as data_quality findings. -/
def data_quality_concerns (dqa_output : DataQualityOutput) : List CounterArgument :=
  (dqa_output.data_warnings.filter fun w => w.severity = "A" ∨ w.severity = "B").map
    fun w =>
      { severity := w.severity,
        category := "data_quality",
        claim := "Data quality issue: " ++ w.category,
        evidence := w.message,
        impact := "Data integrity concerns undermine confidence in financial analysis" }

/-- DevilsAdvocateAgent._generate_counterarguments: the six metric blocks
and the re-surfaced integrity warnings, appended in source order. -/
def generate_counterarguments (_ticker : String) (dqa_output : DataQualityOutput)
    (va_output : ValuationOutput) : List CounterArgument :=
  roic_concerns dqa_output ++ roe_concerns dqa_output ++ moat_concerns dqa_output
    ++ valuation_concerns va_output ++ cash_quality_concerns dqa_output
    ++ stability_concerns dqa_output ++ data_quality_concerns dqa_output

/-- DevilsAdvocateAgent._make_recommendation: veto dominates, then at least
two A-findings reject, at least three B-findings reduce, then the stress
dict entry failed (defaulting to False), then a single A-finding reduces,
otherwise proceed. The stress_results dict is read only at the key failed. -/
def make_recommendation (veto : Bool) (counterarguments : List CounterArgument)
    (stress_results : List (String × Bool)) : String :=
  if veto then "REJECT"
  else
    let a_level_count := (counterarguments.filter fun arg => arg.severity = "A").length
    if 2 ≤ a_level_count then "REJECT"
    else
      let b_level_count := (counterarguments.filter fun arg => arg.severity = "B").length
      if 3 ≤ b_level_count then "REDUCE"
      else if ((stress_results.lookup "failed").getD false) then "REDUCE"
      else if a_level_count = 1 then "REDUCE"
      else "PROCEED"

/-- C5: for every intrinsic value v and current price p, the
margin-of-safety calculator returns exactly -1.0 whenever v is
non-positive and (v - p) / v otherwise; in particular 0.50 for
(100, 50), -1.0 for (50, 100) and 0.0 for (100, 100). -/
theorem C5_margin_of_safety_cases (v p : ℚ) :
    (v ≤ 0 → calculate_mos v p = -1) ∧
    (0 < v → calculate_mos v p = (v - p) / v) ∧
    calculate_mos 100 50 = 0.50 ∧
    calculate_mos 50 100 = -1 ∧
    calculate_mos 100 100 = 0 := by
  refine ⟨fun h => by simp [calculate_mos, h],
    fun h => by rw [calculate_mos, if_neg (not_le.mpr h)],
    by norm_num [calculate_mos],
    by norm_num [calculate_mos],
    by norm_num [calculate_mos]⟩

/-- Witness for C5 at a concrete non-positive intrinsic value. -/
theorem C5_margin_of_safety_witness : calculate_mos (-5) 7 = -1 :=
  (C5_margin_of_safety_cases (-5) 7).1 (by norm_num)

/-- C6: the owner-earnings calculator returns CFO minus maintenance capex,
resolved in priority order: capex times (1 - growth ratio) when total
capex is positive and a ratio is given, half of capex when positive without
ratio, and 30 percent of CFO otherwise; the worked example gives 8000000. -/
theorem C6_owner_earnings_policy (d : FinancialRecord) :
    (∀ r : ℚ, 0 < d.total_capex.getD 0 → d.growth_capex_ratio = some r →
      calculate_owner_earnings d = d.cfo.getD 0 - d.total_capex.getD 0 * (1 - r)) ∧
    (0 < d.total_capex.getD 0 → d.growth_capex_ratio = none →
      calculate_owner_earnings d = d.cfo.getD 0 - d.total_capex.getD 0 * 0.5) ∧
    (d.total_capex.getD 0 ≤ 0 →
      calculate_owner_earnings d = d.cfo.getD 0 - d.cfo.getD 0 * 0.30) ∧
    calculate_owner_earnings { cfo := some 10000000, total_capex := some 4000000,
                               growth_capex_ratio := some 0.5 } = 8000000 := by
  refine ⟨fun r htc hr => by simp [calculate_owner_earnings, hr, htc],
    fun htc hr => by simp [calculate_owner_earnings, hr, htc],
    fun htc => by simp [calculate_owner_earnings, not_lt.mpr htc],
    by norm_num [calculate_owner_earnings]⟩

/-- Witness for C6 at a record with no capex data at all. -/
theorem C6_owner_earnings_witness :
    calculate_owner_earnings { cfo := some 10000000 } =
      (10000000 : ℚ) - 10000000 * 0.30 :=
  (C6_owner_earnings_policy { cfo := some 10000000 }).2.2.1 (by norm_num)

/-- C7: the ROIC calculator returns 0 whenever invested capital (assets
minus current liabilities minus cash) is non-positive, and exactly
NOPAT divided by invested capital otherwise; the worked example gives
7500000 / 35000000. -/
theorem C7_roic_cases (d : FinancialRecord) :
    (d.total_assets.getD 0 - d.current_liabilities.getD 0 - d.cash.getD 0 ≤ 0 →
      calculate_roic d = 0) ∧
    (0 < d.total_assets.getD 0 - d.current_liabilities.getD 0 - d.cash.getD 0 →
      calculate_roic d =
        d.operating_income.getD 0 * (1 - d.tax_rate.getD 0.25) /
          (d.total_assets.getD 0 - d.current_liabilities.getD 0 - d.cash.getD 0)) ∧
    calculate_roic { operating_income := some 10000000, tax_rate := some 0.25,
                     total_assets := some 50000000, current_liabilities := some 10000000,
                     cash := some 5000000 } = 7500000 / 35000000 := by
  refine ⟨fun h => by simp [calculate_roic, h],
    fun h => by simp [calculate_roic, not_le.mpr h],
    by norm_num [calculate_roic]⟩

/-- Witness for C7 at a record whose invested capital is zero. -/
theorem C7_roic_witness :
    calculate_roic { operating_income := some 10000000,
                     total_assets := some 15000000, current_liabilities := some 10000000,
                     cash := some 5000000 } = 0 :=
  (C7_roic_cases { operating_income := some 10000000,
                   total_assets := some 15000000, current_liabilities := some 10000000,
                   cash := some 5000000 }).1 (by norm_num)

/-- C10: in DataQualityAgent.analyze the CFO/NI denominator defaults to 1
when the net-income field is absent, so the reported cfo_ni_ratio is the
raw operating cash flow itself, whereas a present non-positive net income
yields the 0 fallback. -/
theorem C10_cfo_ni_ratio_default (vol : List ℚ → ℚ) (ticker : String)
    (d : FinancialRecord) :
    (d.net_income = none → (analyze vol ticker d).cfo_ni_ratio = d.cfo.getD 0) ∧
    (∀ ni : ℚ, d.net_income = some ni → ni ≤ 0 →
      (analyze vol ticker d).cfo_ni_ratio = 0) := by
  constructor
  · intro h
    simp [analyze, h]
  · intro ni h hni
    simp [analyze, h, not_lt.mpr hni]

/-- Witness for C10: a record with CFO 5000000 and no net-income field
reports a cfo_ni_ratio of 5000000. -/
theorem C10_cfo_ni_ratio_witness :
    (analyze (fun _ => 0) "TEST" { cfo := some 5000000 }).cfo_ni_ratio = 5000000 :=
  ((C10_cfo_ni_ratio_default (fun _ => 0) "TEST" { cfo := some 5000000 }).1
    rfl).trans (by norm_num)

/-- C3: the recommendation function on a veto flag and a finding set (with
the placeholder empty stress dict the pipeline passes): veto rejects
regardless of counts; without veto, two or more A-findings reject, exactly
one A-finding with fewer than three B-findings reduces, zero A-findings
with three or more B-findings reduces, and zero A-findings with at most
two B-findings proceeds. -/
theorem C3_recommendation_cases (veto : Bool) (args : List CounterArgument) :
    (veto = true → make_recommendation veto args [] = "REJECT") ∧
    (veto = false → 2 ≤ (args.filter fun a => a.severity = "A").length →
      make_recommendation veto args [] = "REJECT") ∧
    (veto = false → (args.filter fun a => a.severity = "A").length = 1 →
      (args.filter fun a => a.severity = "B").length < 3 →
      make_recommendation veto args [] = "REDUCE") ∧
    (veto = false → (args.filter fun a => a.severity = "A").length = 0 →
      3 ≤ (args.filter fun a => a.severity = "B").length →
      make_recommendation veto args [] = "REDUCE") ∧
    (veto = false → (args.filter fun a => a.severity = "A").length = 0 →
      (args.filter fun a => a.severity = "B").length ≤ 2 →
      make_recommendation veto args [] = "PROCEED") := by
  refine ⟨fun h => by simp [make_recommendation, h], ?_, ?_, ?_, ?_⟩
  · intro hv h
    subst hv
    simp [make_recommendation, h]
  · intro hv h1 h2
    subst hv
    simp [make_recommendation, h1, not_le.mpr h2]
  · intro hv h1 h2
    subst hv
    simp [make_recommendation, h1, h2]
  · intro hv h1 h2
    subst hv
    simp only [make_recommendation, List.lookup_nil, Option.getD_none]
    split_ifs with h0 ha hb ha1 <;> first | rfl | omega | simp_all

end Warren

namespace Warren

/-- C2: every malformed condition string (wrong token count, unparsable
threshold, unresolvable metric name, unknown operator) makes the condition
evaluator return ok false, never an error, whatever the two metric
outputs hold. -/
theorem C2_malformed_condition_false (condition : String)
    (dqa_output : DataQualityOutput) (va_output : ValuationOutput) :
    ((pyTokens condition).length ≠ 3 →
      evaluate_condition condition dqa_output va_output = .ok false) ∧
    (∀ metric operator threshold_str,
      pyTokens condition = [metric, operator, threshold_str] →
      (pyFloat threshold_str = none →
        evaluate_condition condition dqa_output va_output = .ok false) ∧
      (resolve_metric dqa_output va_output metric = none →
        evaluate_condition condition dqa_output va_output = .ok false) ∧
      (operator ≠ ">" → operator ≠ "<" → operator ≠ ">=" → operator ≠ "<=" →
        operator ≠ "==" →
        evaluate_condition condition dqa_output va_output = .ok false)) := by
  constructor
  · intro hlen
    rcases h : pyTokens condition with _ | ⟨m, _ | ⟨op, _ | ⟨t, _ | ⟨x, rest⟩⟩⟩⟩
    · simp [evaluate_condition, h]
    · simp [evaluate_condition, h]
    · simp [evaluate_condition, h]
    · exact absurd (by rw [h]; rfl) hlen
    · simp [evaluate_condition, h]
  · intro metric operator threshold_str h
    refine ⟨fun hfl => by simp [evaluate_condition, h, hfl], ?_, ?_⟩
    · intro hres
      cases hfl : pyFloat threshold_str with
      | none => simp [evaluate_condition, h, hfl]
      | some th => simp [evaluate_condition, h, hfl, hres]
    · intro h1 h2 h3 h4 h5
      cases hfl : pyFloat threshold_str with
      | none => simp [evaluate_condition, h, hfl]
      | some th =>
          cases hres : resolve_metric dqa_output va_output metric with
          | none => simp [evaluate_condition, h, hfl, hres]
          | some v => simp [evaluate_condition, h, hfl, hres, h1, h2, h3, h4, h5]

/-- Concrete quality output used by witnesses and counterexamples: clean on
every advisory metric, moat score 30. -/
def dqa_fix : DataQualityOutput :=
  { ticker := "TEST", roic := 0.2, roe := 0.2, margin_stability := 0.05,
    moat_score := 30, data_warnings := [], beneish_m_score := -2.5,
    cfo_ni_ratio := 1 }

/-- Concrete valuation output used by witnesses and counterexamples. -/
def va_fix : ValuationOutput :=
  { ticker := "TEST", owner_earnings := 1000, intrinsic_value_base := 100,
    intrinsic_value_low := 80, intrinsic_value_high := 120,
    current_price := 50, margin_of_safety := 0.5 }

/-- Witness for C2: a two-token condition evaluates to ok false. -/
theorem C2_malformed_condition_witness :
    evaluate_condition "moat_score <" dqa_fix va_fix = .ok false :=
  (C2_malformed_condition_false "moat_score <" dqa_fix va_fix).1 (by decide)

end Warren

namespace Warren

/-- Boolean test that a rule's condition evaluates to ok true. -/
def evalsTrue (dqa_output : DataQualityOutput) (va_output : ValuationOutput)
    (rule : VetoRule) : Bool :=
  match evaluate_condition rule.condition dqa_output va_output with
  | .ok true => true
  | _ => false

theorem evalsTrue_iff (dqa_output : DataQualityOutput) (va_output : ValuationOutput)
    (rule : VetoRule) :
    evalsTrue dqa_output va_output rule = true ↔
      evaluate_condition rule.condition dqa_output va_output = .ok true := by
  unfold evalsTrue
  cases h : evaluate_condition rule.condition dqa_output va_output with
  | error e => simp
  | ok b => cases b <;> simp

/-- C4 (amended): provided no severity-A rule's condition raises (a
condition whose metric resolves to a non-numeric field under an order
operator aborts the analysis instead), the veto engine returns ok
(false, none) when no severity-A rule matches, and ok (true, description)
for the first matching severity-A rule in configured order, other
severities being skipped entirely. -/
theorem C4_veto_engine_first_match (veto_rules : List VetoRule)
    (dqa_output : DataQualityOutput) (va_output : ValuationOutput)
    (hsafe : ∀ rule ∈ veto_rules, rule.severity = some "A" →
      ∀ e, evaluate_condition rule.condition dqa_output va_output ≠ .error e) :
    (veto_rules.find? (fun rule => rule.severity == some "A"
        && evalsTrue dqa_output va_output rule) = none →
      check_veto_rules veto_rules dqa_output va_output = .ok (false, none)) ∧
    (∀ rule, veto_rules.find? (fun rule => rule.severity == some "A"
        && evalsTrue dqa_output va_output rule) = some rule →
      check_veto_rules veto_rules dqa_output va_output
        = .ok (true, some rule.description)) := by
  induction veto_rules with
  | nil => exact ⟨fun _ => rfl, fun rule h => by simp [List.find?] at h⟩
  | cons r rest ih =>
      have hsafe' : ∀ rule ∈ rest, rule.severity = some "A" →
          ∀ e, evaluate_condition rule.condition dqa_output va_output ≠ .error e :=
        fun rule hr => hsafe rule (List.mem_cons_of_mem _ hr)
      obtain ⟨ih1, ih2⟩ := ih hsafe'
      by_cases hA : r.severity = some "A"
      · cases hev : evaluate_condition r.condition dqa_output va_output with
        | error e => exact absurd hev (hsafe r (List.mem_cons_self r rest) hA e)
        | ok b =>
            have hpred : (r.severity == some "A" && evalsTrue dqa_output va_output r)
                = b := by
              rw [hA]
              cases b
              · simp [evalsTrue, hev]
              · simp [evalsTrue_iff, hev]
            cases b
            · constructor
              · intro hfind
                rw [List.find?_cons, hpred] at hfind
                rw [check_veto_rules]
                simp only [hA, ne_eq, not_true_eq_false, if_false, hev]
                exact ih1 hfind
              · intro rule hfind
                rw [List.find?_cons, hpred] at hfind
                rw [check_veto_rules]
                simp only [hA, ne_eq, not_true_eq_false, if_false, hev]
                exact ih2 rule hfind
            · constructor
              · intro hfind
                rw [List.find?_cons, hpred] at hfind
                exact absurd hfind (by simp)
              · intro rule hfind
                rw [List.find?_cons, hpred] at hfind
                simp only [cond_true, Option.some.injEq] at hfind
                subst hfind
                rw [check_veto_rules]
                simp only [hA, ne_eq, not_true_eq_false, if_false, hev]
      · have hpred : (r.severity == some "A" && evalsTrue dqa_output va_output r)
            = false := by
          have : (r.severity == some "A") = false := by
            simpa using hA
          simp [this]
        have hstep : check_veto_rules (r :: rest) dqa_output va_output
            = check_veto_rules rest dqa_output va_output := by
          rw [check_veto_rules]
          simp only [ne_eq, hA, not_false_eq_true, if_true]
        constructor
        · intro hfind
          rw [List.find?_cons, hpred] at hfind
          rw [hstep]
          exact ih1 hfind
        · intro rule hfind
          rw [List.find?_cons, hpred] at hfind
          rw [hstep]
          exact ih2 rule hfind

end Warren

namespace Warren

/-- Severity-A rule whose condition compares the string field ticker with a
number: resolution succeeds, so the order comparison raises. -/
def bad_rule : VetoRule :=
  { severity := some "A", condition := "ticker > 5", description := "bad rule" }

/-- Counterexample to C4 as stated: with the rule list [bad_rule], no
severity-A rule's condition evaluates true, yet the veto engine propagates
a TypeError instead of returning veto=false with no reason. -/
theorem C4_veto_engine_counterexample :
    evaluate_condition bad_rule.condition dqa_fix va_fix = .error "TypeError" ∧
    check_veto_rules [bad_rule] dqa_fix va_fix = .error "TypeError" ∧
    check_veto_rules [bad_rule] dqa_fix va_fix ≠ .ok (false, none) := by
  have he : check_veto_rules [bad_rule] dqa_fix va_fix = .error "TypeError" := rfl
  exact ⟨rfl, he, fun h => Except.noConfusion (he.symm.trans h)⟩

/-- Severity-A rule that matches the fixture (moat score 30 below 40). -/
def moat_rule : VetoRule :=
  { severity := some "A", condition := "moat_score < 40",
    description := "No competitive moat" }

/-- Rule list for the C4 witness: an advisory severity-B rule followed by a
matching severity-A rule. -/
def veto_rules_fix : List VetoRule :=
  [{ severity := some "B", condition := "roic < 0.08", description := "advisory" },
   moat_rule]

/-- Witness for C4 at the concrete rule list: the severity-B rule is
skipped and the matching severity-A rule's description is returned. -/
theorem C4_veto_engine_witness :
    check_veto_rules veto_rules_fix dqa_fix va_fix
      = .ok (true, some "No competitive moat") := by
  have hev : evaluate_condition "moat_score < 40" dqa_fix va_fix = .ok true := by
    have h : pyTokens "moat_score < 40" = ["moat_score", "<", "40"] := rfl
    have hf : pyFloat "40" = some (40 + 0/10^0) := rfl
    simp [evaluate_condition, h, hf, resolve_metric, dqaAttr, dqa_fix, ordCompare]
    norm_num
  have hsafe : ∀ rule ∈ veto_rules_fix, rule.severity = some "A" →
      ∀ e, evaluate_condition rule.condition dqa_fix va_fix ≠ .error e := by
    intro rule hr hA e
    simp only [veto_rules_fix, List.mem_cons, List.not_mem_nil, or_false] at hr
    rcases hr with hr | hr
    · rw [hr] at hA
      exact absurd hA (by simp)
    · rw [hr]
      show evaluate_condition "moat_score < 40" dqa_fix va_fix ≠ .error e
      rw [hev]
      simp
  have het : evalsTrue dqa_fix va_fix moat_rule = true :=
    (evalsTrue_iff dqa_fix va_fix moat_rule).mpr hev
  have hfind : veto_rules_fix.find? (fun rule => rule.severity == some "A"
      && evalsTrue dqa_fix va_fix rule) = some moat_rule := by
    simp [veto_rules_fix, List.find?, het,
      show (moat_rule.severity == some "A") = true from rfl]
  exact (C4_veto_engine_first_match veto_rules_fix dqa_fix va_fix hsafe).2 _ hfind

end Warren

namespace Warren

theorem mem_beneish_warnings {data : FinancialRecord} {w : DataWarning}
    (hw : w ∈ beneish_warnings data) : w.category = "earnings_quality" := by
  unfold beneish_warnings at hw
  split at hw
  · split_ifs at hw
    · simp only [List.mem_singleton] at hw
      rw [hw]
    · simp at hw
  · simp at hw

theorem mem_cash_warnings {data : FinancialRecord} {w : DataWarning}
    (hw : w ∈ cash_warnings data) : w.category = "cash_quality" := by
  unfold cash_warnings at hw
  split at hw
  · split at hw
    · dsimp only at hw
      split at hw
      · simp only [List.mem_singleton] at hw
        rw [hw]
      · split at hw
        · simp only [List.mem_singleton] at hw
          rw [hw]
        · simp at hw
    · simp at hw
  · simp at hw

theorem mem_equity_warnings {data : FinancialRecord} {w : DataWarning}
    (hw : w ∈ equity_warnings data) : w.category = "balance_sheet" := by
  unfold equity_warnings at hw
  split at hw
  · split_ifs at hw
    · simp only [List.mem_singleton] at hw
      rw [hw]
    · simp at hw
  · simp at hw

theorem mem_missing_warnings {data : FinancialRecord} {w : DataWarning}
    (hw : w ∈ missing_warnings data) :
    w.category = "missing_data" ∧ missing_fields data ≠ [] ∧
    w.severity = (if (missing_fields data).length ≤ 2 then "B" else "C") ∧
    w.message = "Missing critical fields: "
      ++ String.intercalate ", " (missing_fields data) := by
  unfold missing_warnings at hw
  by_cases h : missing_fields data ≠ []
  · rw [if_pos h] at hw
    simp only [List.mem_singleton] at hw
    subst hw
    exact ⟨rfl, h, rfl, rfl⟩
  · rw [if_neg h] at hw
    simp at hw

theorem missing_warning_mem {data : FinancialRecord}
    (h : missing_fields data ≠ []) :
    ({ severity := if (missing_fields data).length ≤ 2 then "B" else "C",
       category := "missing_data",
       message := "Missing critical fields: "
         ++ String.intercalate ", " (missing_fields data) } : DataWarning)
      ∈ missing_warnings data := by
  unfold missing_warnings
  rw [if_pos h]
  exact List.mem_singleton_self _

theorem missing_fields_ne_nil (d : FinancialRecord) :
    missing_fields d ≠ [] ↔
      (d.operating_income = none ∨ d.net_income = none ∨ d.total_assets = none ∨
        d.shareholders_equity = none ∨ d.cfo = none) := by
  cases h1 : d.operating_income <;> cases h2 : d.net_income <;>
    cases h3 : d.total_assets <;> cases h4 : d.shareholders_equity <;>
    cases h5 : d.cfo <;>
    simp [missing_fields, critical_fields, getField, h1, h2, h3, h4, h5]

/-- C9: the integrity checker emits a missing_data warning exactly when at
least one of operating income, net income, total assets, shareholders
equity or operating cash flow is absent; its severity is B for at most two
missing fields and C for three or more, and its message lists the missing
field names. -/
theorem C9_missing_data_warning (d : FinancialRecord) :
    ((∃ w ∈ check_data_integrity d, w.category = "missing_data") ↔
      (d.operating_income = none ∨ d.net_income = none ∨ d.total_assets = none ∨
        d.shareholders_equity = none ∨ d.cfo = none)) ∧
    (∀ w ∈ check_data_integrity d, w.category = "missing_data" →
      w.severity = (if (missing_fields d).length ≤ 2 then "B" else "C") ∧
      w.message = "Missing critical fields: "
        ++ String.intercalate ", " (missing_fields d)) := by
  constructor
  · rw [← missing_fields_ne_nil]
    constructor
    · rintro ⟨w, hw, hcat⟩
      simp only [check_data_integrity, List.mem_append] at hw
      rcases hw with ((hw | hw) | hw) | hw
      · rw [mem_beneish_warnings hw] at hcat
        exact absurd hcat (by decide)
      · rw [mem_cash_warnings hw] at hcat
        exact absurd hcat (by decide)
      · exact (mem_missing_warnings hw).2.1
      · rw [mem_equity_warnings hw] at hcat
        exact absurd hcat (by decide)
    · intro hne
      exact ⟨_, List.mem_append_left _ (List.mem_append_right _
        (missing_warning_mem hne)), rfl⟩
  · intro w hw hcat
    simp only [check_data_integrity, List.mem_append] at hw
    rcases hw with ((hw | hw) | hw) | hw
    · rw [mem_beneish_warnings hw] at hcat
      exact absurd hcat (by decide)
    · rw [mem_cash_warnings hw] at hcat
      exact absurd hcat (by decide)
    · exact ⟨(mem_missing_warnings hw).2.2.1, (mem_missing_warnings hw).2.2.2⟩
    · rw [mem_equity_warnings hw] at hcat
      exact absurd hcat (by decide)

/-- Witness for C9: a record missing every critical field but net income
gets a severity-C missing_data warning naming the four absent fields. -/
theorem C9_missing_data_witness :
    ∃ w ∈ check_data_integrity { net_income := some 1 }, w.category = "missing_data" :=
  (C9_missing_data_warning { net_income := some 1 }).1.mpr (Or.inl rfl)

end Warren

namespace Warren

theorem mem_roic_concerns {dqa_output : DataQualityOutput} {c : CounterArgument}
    (hc : c ∈ roic_concerns dqa_output) : c.category = "profitability" := by
  unfold roic_concerns at hc
  split at hc
  · simp only [List.mem_singleton] at hc
    rw [hc]
  · simp at hc

theorem mem_roe_concerns {dqa_output : DataQualityOutput} {c : CounterArgument}
    (hc : c ∈ roe_concerns dqa_output) : c.category = "profitability" := by
  unfold roe_concerns at hc
  split at hc
  · simp only [List.mem_singleton] at hc
    rw [hc]
  · simp at hc

theorem mem_moat_concerns {dqa_output : DataQualityOutput} {c : CounterArgument}
    (hc : c ∈ moat_concerns dqa_output) : c.category = "competitive_moat" := by
  unfold moat_concerns at hc
  split at hc
  · split at hc
    · simp only [List.mem_singleton] at hc
      rw [hc]
    · simp only [List.mem_singleton] at hc
      rw [hc]
  · simp at hc

theorem mem_valuation_concerns {va_output : ValuationOutput} {c : CounterArgument}
    (hc : c ∈ valuation_concerns va_output) : c.category = "valuation" := by
  unfold valuation_concerns at hc
  split at hc
  · dsimp only at hc
    simp only [List.mem_singleton] at hc
    rw [hc]
  · simp at hc

theorem mem_cash_quality_concerns {dqa_output : DataQualityOutput}
    {c : CounterArgument} (hc : c ∈ cash_quality_concerns dqa_output) :
    c.category = "cash_quality" := by
  unfold cash_quality_concerns at hc
  split at hc
  · split at hc
    · simp only [List.mem_singleton] at hc
      rw [hc]
    · simp at hc
  · simp at hc

theorem mem_stability_concerns {dqa_output : DataQualityOutput} {c : CounterArgument}
    (hc : c ∈ stability_concerns dqa_output) :
    c.category = "business_stability" ∧
    c.severity = (if dqa_output.margin_stability < 0.15 then "B" else "A") ∧
    0.10 < dqa_output.margin_stability := by
  unfold stability_concerns at hc
  by_cases h : (0.10 : ℚ) < dqa_output.margin_stability
  · rw [if_pos h] at hc
    simp only [List.mem_singleton] at hc
    subst hc
    exact ⟨rfl, rfl, h⟩
  · rw [if_neg h] at hc
    simp at hc

theorem stability_concern_mem {dqa_output : DataQualityOutput}
    (h : 0.10 < dqa_output.margin_stability) :
    ∃ c ∈ stability_concerns dqa_output, c.category = "business_stability" := by
  unfold stability_concerns
  rw [if_pos h]
  exact ⟨_, List.mem_singleton_self _, rfl⟩

theorem mem_data_quality_concerns {dqa_output : DataQualityOutput}
    {c : CounterArgument} (hc : c ∈ data_quality_concerns dqa_output) :
    c.category = "data_quality" := by
  unfold data_quality_concerns at hc
  simp only [List.mem_map] at hc
  obtain ⟨w, _, hw⟩ := hc
  rw [← hw]

/-- C8 (amended): the counterargument generator emits a business-stability
finding exactly when margin stability exceeds 0.10; the finding has
severity B when margin stability is strictly below 0.15 and severity A
from 0.15 upward (so a value of exactly 0.15 gets severity A). -/
theorem C8_margin_stability_finding (ticker : String)
    (dqa_output : DataQualityOutput) (va_output : ValuationOutput) :
    ((∃ c ∈ generate_counterarguments ticker dqa_output va_output,
        c.category = "business_stability") ↔
      0.10 < dqa_output.margin_stability) ∧
    (∀ c ∈ generate_counterarguments ticker dqa_output va_output,
      c.category = "business_stability" →
      c.severity = if dqa_output.margin_stability < 0.15 then "B" else "A") := by
  constructor
  · constructor
    · rintro ⟨c, hc, hcat⟩
      simp only [generate_counterarguments, List.mem_append] at hc
      rcases hc with (((((hc | hc) | hc) | hc) | hc) | hc) | hc
      · rw [mem_roic_concerns hc] at hcat
        exact absurd hcat (by decide)
      · rw [mem_roe_concerns hc] at hcat
        exact absurd hcat (by decide)
      · rw [mem_moat_concerns hc] at hcat
        exact absurd hcat (by decide)
      · rw [mem_valuation_concerns hc] at hcat
        exact absurd hcat (by decide)
      · rw [mem_cash_quality_concerns hc] at hcat
        exact absurd hcat (by decide)
      · exact (mem_stability_concerns hc).2.2
      · rw [mem_data_quality_concerns hc] at hcat
        exact absurd hcat (by decide)
    · intro h
      obtain ⟨c, hc, hcat⟩ := stability_concern_mem h
      exact ⟨c, List.mem_append_left _ (List.mem_append_right _ hc), hcat⟩
  · intro c hc hcat
    simp only [generate_counterarguments, List.mem_append] at hc
    rcases hc with (((((hc | hc) | hc) | hc) | hc) | hc) | hc
    · rw [mem_roic_concerns hc] at hcat
      exact absurd hcat (by decide)
    · rw [mem_roe_concerns hc] at hcat
      exact absurd hcat (by decide)
    · rw [mem_moat_concerns hc] at hcat
      exact absurd hcat (by decide)
    · rw [mem_valuation_concerns hc] at hcat
      exact absurd hcat (by decide)
    · rw [mem_cash_quality_concerns hc] at hcat
      exact absurd hcat (by decide)
    · exact (mem_stability_concerns hc).2.1
    · rw [mem_data_quality_concerns hc] at hcat
      exact absurd hcat (by decide)

/-- Quality output with margin stability exactly 0.15 and every other
advisory metric clean. -/
def dqa_c8 : DataQualityOutput :=
  { ticker := "TEST", roic := 0.2, roe := 0.2, margin_stability := 0.15,
    moat_score := 75, data_warnings := [], beneish_m_score := -2.5,
    cfo_ni_ratio := 1 }

/-- Counterexample to C8 as stated: at margin stability exactly 0.15 the
only finding generated is a business-stability finding of severity A, not
the severity B the claim requires. -/
theorem C8_margin_stability_counterexample :
    dqa_c8.margin_stability = 0.15 ∧
    ((generate_counterarguments "TEST" dqa_c8 va_fix).map fun c =>
      (c.category, c.severity)) = [("business_stability", "A")] := by
  constructor
  · rfl
  · norm_num [generate_counterarguments, roic_concerns, roe_concerns,
      moat_concerns, valuation_concerns, cash_quality_concerns,
      stability_concerns, data_quality_concerns, dqa_c8, va_fix]

/-- Witness for C8 at the concrete fixture with margin stability 0.15. -/
theorem C8_margin_stability_witness :
    ∃ c ∈ generate_counterarguments "TEST" dqa_c8 va_fix,
      c.category = "business_stability" :=
  (C8_margin_stability_finding "TEST" dqa_c8 va_fix).1.mpr (by norm_num [dqa_c8])

end Warren

namespace Warren

/-- Record with a single-point negative gross-margin history and a
single-point negative ROIC history; both stability branches are skipped,
so the result does not depend on the standard deviation. -/
def moat_fail_record : FinancialRecord :=
  { gross_margin := [-1], roic_history := [-1] }

/-- Record with no history at all. -/
def empty_record : FinancialRecord := {}

/-- C1: the moat score of the empty-history record is 0, but the score is
only capped above by min(100, round(score)) and is never floored at 0: a
record with negative-valued single-point gross-margin and ROIC histories
scores -105, outside [0, 100], for every volatility function. -/
theorem C1_moat_score_out_of_range (vol : List ℚ → ℚ) :
    compute_moat_score vol empty_record = 0 ∧
    compute_moat_score vol moat_fail_record = -105 ∧
    compute_moat_score vol moat_fail_record < 0 := by
  refine ⟨?_, ?_, ?_⟩
  · norm_num [compute_moat_score, empty_record, pyRound]
  · norm_num [compute_moat_score, moat_fail_record, listMean, pyRound,
      min_def, max_def]
  · norm_num [compute_moat_score, moat_fail_record, listMean, pyRound,
      min_def, max_def]

end Warren

namespace Warren

/-- Witness for C3 at the empty finding set without veto. -/
theorem C3_recommendation_witness :
    make_recommendation false [] [] = "PROCEED" :=
  (C3_recommendation_cases false []).2.2.2.2 rfl rfl (by decide)

end Warren
